import Mathlib

/-!
Shallow embedding of the sales-pipeline workflow engine
(`utils.py`, `session_manager.py`, `tools.py`, `agent.py`).

Modelling conventions:
* Python strings are Lean `String`s; character-level work is done on `String.data`.
* Python dicts are association lists (`List (String × Value)`) whose keys are
  unique by construction; `dict.update` / `d[k] = v` are modelled by `setKey`
  and `dictUpdate` below, preserving Python's key-overwrite semantics.
* Python numbers are modelled exactly over `Int`/`ℚ` (Python ints are
  arbitrary precision; the one float division in `score_lead` is modelled as
  exact rational division, which is what the spec's formula denotes).
* Wall-clock time is an explicit `now : Nat` parameter; `random.choice` and
  the external enrichment / model-polish capabilities are explicit parameters.
* Exceptions are `Except`; the two regular expressions of
  `scrub_output_for_pii` are compiled by hand into deterministic matchers with
  Python `re` leftmost / greedy-with-backtracking semantics (ASCII inputs).
-/

namespace SalesPipeline

/-! ## Character classes used by the two regexes in `utils.scrub_output_for_pii`

Email pattern: `\b[a-zA-Z0-9._%+-]+@[a-zA-Z0-9.-]+\.[a-zA-Z]{2,}\b`
Phone pattern: `\+?\d[\d\-\s]{7,}\d`
(`\w`, `\d`, `\s`, `\b` restricted to ASCII, which covers every string the
program and this development feed them.) -/

def isLetterChar (c : Char) : Bool :=
  (('a' ≤ c && c ≤ 'z') || ('A' ≤ c && c ≤ 'Z'))

def isDigitChar (c : Char) : Bool := '0' ≤ c && c ≤ '9'

def isWordChar (c : Char) : Bool := isLetterChar c || isDigitChar c || c = '_'

/-- the set `[a-zA-Z0-9._%+-]` (local part of the email regex) -/
def isLocalChar (c : Char) : Bool :=
  isLetterChar c || isDigitChar c || c = '.' || c = '_' || c = '%' || c = '+' || c = '-'

/-- the set `[a-zA-Z0-9.-]` (domain part of the email regex) -/
def isDomainChar (c : Char) : Bool :=
  isLetterChar c || isDigitChar c || c = '.' || c = '-'

/-- the set `[\d\-\s]` (middle of the phone regex); `\s` as ASCII whitespace -/
def isPhoneMidChar (c : Char) : Bool :=
  isDigitChar c || c = '-' || c = ' ' || c = '\t' || c = '\n' || c = '\r' ||
    c = Char.ofNat 11 || c = Char.ofNat 12

/-- `\b` between the previous character (none at string start) and the current one. -/
def isBoundary (prev : Option Char) (cur : Char) : Bool :=
  match prev with
  | none => isWordChar cur
  | some p => isWordChar p != isWordChar cur

/-! ## The email matcher

`emailMatchAt prev l` returns the length of the (unique, per the regex
engine's greedy-with-backtracking order) match of the email pattern anchored
at the head of `l`, with `prev` the character preceding `l` in the scanned
string, or `none` when the pattern does not match there.  The local part
cannot backtrack (`@` is outside the local class, so only the maximal class
run can be followed by `@`); the domain part backtracks over the position of
the literal dot (tried right-to-left, the engine's greedy order) and the tld
accepts only its maximal letter run (any shorter run is followed by a letter,
which is a word character, so the trailing `\b` fails). -/

/-- Try tld lengths `n, n-1, …, 2`; `rest.take n` is all letters.  Succeeds at
the first length whose following character is absent or a non-word char. -/
def tryTld (rest : List Char) : Nat → Option Nat
  | 0 => none
  | 1 => none
  | n + 2 =>
    match rest[n + 2]? with
    | none => some (n + 2)
    | some c => if !isWordChar c then some (n + 2) else tryTld rest (n + 1)

/-- Try dot positions `a2, a2-1, …, 1` inside the domain-class run `dom`;
at a successful position, the total domain-part length is
`a2 (class chars) + 1 (dot) + tld length`. -/
def tryDomainSplit (dom : List Char) : Nat → Option Nat
  | 0 => none
  | a2 + 1 =>
    match dom[a2 + 1]? with
    | some '.' =>
      let rest := dom.drop (a2 + 2)
      let maxL := (rest.takeWhile isLetterChar).length
      (match tryTld rest maxL with
       | some l => some ((a2 + 1) + 1 + l)
       | none => tryDomainSplit dom a2)
    | _ => tryDomainSplit dom a2

def emailMatchAt (prev : Option Char) (l : List Char) : Option Nat :=
  match l with
  | [] => none
  | c :: _ =>
    if !isBoundary prev c then none
    else
      let a := (l.takeWhile isLocalChar).length
      if a = 0 then none
      else
        match l[a]? with
        | some '@' =>
          let dom := l.drop (a + 1)
          let maxA := (dom.takeWhile isDomainChar).length
          if maxA = 0 then none
          else
            (match tryDomainSplit dom maxA with
             | some dlen => some (a + 1 + dlen)
             | none => none)
        | _ => none

/-! ## The phone matcher -/

/-- Try middle-run lengths `m, m-1, …, 7`; succeeds at the first length whose
following character is a digit (at the maximal run length the next character
is outside the middle class, hence not a digit). -/
def tryPhoneTail (rest : List Char) : Nat → Option Nat
  | 0 => none | 1 => none | 2 => none | 3 => none | 4 => none | 5 => none | 6 => none
  | m + 7 =>
    match rest[m + 7]? with
    | some c => if isDigitChar c then some (m + 7) else tryPhoneTail rest (m + 6)
    | none => tryPhoneTail rest (m + 6)

/-- `\d[\d\-\s]{7,}\d` anchored at the head of `l`. -/
def phoneCore (l : List Char) : Option Nat :=
  match l with
  | [] => none
  | c :: rest =>
    if !isDigitChar c then none
    else
      let maxM := (rest.takeWhile isPhoneMidChar).length
      (match tryPhoneTail rest maxM with
       | some m => some (1 + m + 1)
       | none => none)

def phoneMatchAt (_prev : Option Char) (l : List Char) : Option Nat :=
  match l with
  | '+' :: rest =>
    (match phoneCore rest with
     | some n => some (n + 1)
     | none => none)  -- backtracking to the empty side of the optional plus fails: the plus is not a digit
  | _ => phoneCore l

/-! ## `re.sub` and `scrub_output_for_pii` (utils.py lines 22–27)

`re.sub` matches over the original string only: after a replacement the scan
resumes at the match end, and the `\b` context there is the last character of
the matched (original) text, not of the marker. -/

def scanSub (matchAt : Option Char → List Char → Option Nat) (marker : List Char) :
    Option Char → List Char → Nat → List Char
  | _, l, 0 => l  -- fuel exhausted; unreachable: every step consumes at least one character
  | prev, l, fuel + 1 =>
    match l with
    | [] => []
    | c :: rest =>
      match matchAt prev l with
      | some n =>
        marker ++ scanSub matchAt marker ((l.take n).getLast? ) (l.drop n) fuel
      | none => c :: scanSub matchAt marker (some c) rest fuel

def reSub (matchAt : Option Char → List Char → Option Nat) (marker : String)
    (s : List Char) : List Char :=
  scanSub matchAt marker.data none s s.length

def scrub_output_for_pii (text : String) : String :=
  String.mk (reSub phoneMatchAt "[REDACTED_PHONE]"
    (reSub emailMatchAt "[REDACTED_EMAIL]" text.data))

/-- `s` contains a substring matching the email pattern (with its word
boundaries evaluated in context): the search `re.sub` itself performs. -/
def existsEmailMatch : Option Char → List Char → Bool
  | _, [] => false
  | prev, c :: rest => (emailMatchAt prev (c :: rest)).isSome || existsEmailMatch (some c) rest

def containsEmailLike (s : String) : Bool := existsEmailMatch none s.data

/-- `s` contains a substring matching the phone pattern. -/
def existsPhoneMatch : Option Char → List Char → Bool
  | _, [] => false
  | prev, c :: rest => (phoneMatchAt prev (c :: rest)).isSome || existsPhoneMatch (some c) rest

def containsPhoneLike (s : String) : Bool := existsPhoneMatch none s.data

/-! ## Python dict values and association-list dictionaries

`Value` covers every value the workflow stores in a session or record:
strings, integers, the rational score, and nested dicts. -/

inductive Value where
  | str : String → Value
  | int : Int → Value
  | rat : ℚ → Value
  | dict : List (String × Value) → Value

abbrev StateMap := List (String × Value)

/-- `d[k] = v` on a Python dict: overwrite the binding if the key is present
(keeping its position), otherwise append a fresh binding. -/
def setKey {β : Type} : List (String × β) → String → β → List (String × β)
  | [], k, v => [(k, v)]
  | (k', v') :: rest, k, v =>
    if k' = k then (k, v) :: rest else (k', v') :: setKey rest k v

/-- first-binding lookup (the only lookup on maps built by `setKey`). -/
def lookupKey {β : Type} : List (String × β) → String → Option β
  | [], _ => none
  | (k', v) :: rest, k => if k' = k then some v else lookupKey rest k

/-- `d.update(new)` on Python dicts: every binding of `new` is written into
`d` in order, later bindings overwriting earlier ones. -/
def dictUpdate {β : Type} (d new : List (String × β)) : List (String × β) :=
  new.foldl (fun acc kv => setKey acc kv.1 kv.2) d

/-- `d.get(k, default)` when the receiver is a dict; `none` models the
`AttributeError` Python raises when `.get` is called on a non-dict value. -/
def dictGetD (v : Value) (k : String) (default : Value) : Option Value :=
  match v with
  | .dict d => some ((lookupKey d k).getD default)
  | _ => none

/-- extract a string field with a default (fields read this way are strings
whenever they are present, by construction of the producing code). -/
def getStrD (d : StateMap) (k : String) (default : String) : String :=
  match lookupKey d k with
  | some (.str s) => s
  | _ => default

/-! ## Session store (session_manager.py)

`time.time()` is the explicit `now` argument; the Python methods mutate the
store in place, modelled here by returning the new store alongside the
Python return value. -/

structure Session where
  session_id : String
  created_at : Nat
  updated_at : Nat
  state : StateMap

structure InMemorySessionService where
  sessions : List (String × Session)

/-- `InMemorySessionService.create_session` (lines 14–32). -/
def create_session (svc : InMemorySessionService) (session_id : String) (now : Nat) :
    Session × InMemorySessionService :=
  let session_data : Session :=
    { session_id := session_id, created_at := now, updated_at := now, state := [] }
  (session_data, ⟨setKey svc.sessions session_id session_data⟩)

/-- `InMemorySessionService.get_session` (lines 34–38). -/
def get_session (svc : InMemorySessionService) (session_id : String) : Option Session :=
  lookupKey svc.sessions session_id

/-- `InMemorySessionService.update_session` (lines 40–57): merge `new_state`
into the existing state and refresh `updated_at`, or return `none` leaving
the store untouched when the id is unknown. -/
def update_session (svc : InMemorySessionService) (session_id : String)
    (new_state : StateMap) (now : Nat) : Option Session × InMemorySessionService :=
  match get_session svc session_id with
  | none => (none, svc)
  | some session =>
    let session' : Session :=
      { session with state := dictUpdate session.state new_state, updated_at := now }
    (some session', ⟨setKey svc.sessions session_id session'⟩)

/-! ## tools.py -/

/-- `retry(fn, attempts, …)` (tools.py lines 12–22), with the external call's
outcome on its `i`-th invocation given by `fn i`; sleeping and logging do not
affect the value.  The `0` case is unreachable: every call site passes a
positive attempt count. -/
def retryE (fn : Nat → Except Unit String) : Nat → Nat → Except Unit String
  | _, 0 => .error ()
  | i, 1 => fn i
  | i, n + 2 =>
    match fn i with
    | .ok a => .ok a
    | .error _ => retryE fn (i + 1) (n + 1)

def retry (fn : Nat → Except Unit String) (attempts : Nat) : Except Unit String :=
  retryE fn 0 attempts

/-- the deterministic research baseline summary (tools.py line 36). -/
def baselineSummary (company_name : String) : String :=
  company_name ++ " is a company operating in the Technology vertical (deterministic mock)."

/-- Environment of `research_company`: the two `random.choice` draws and the
enrichment adapter (`some overrides` when `ENABLE_EXTERNAL_ENRICHMENT` and the
key are set and the retried adapter call succeeds; `none` when disabled or
when the adapter fails after its retries, which is swallowed). -/
structure ResearchEnv where
  stageChoice : String
  employeeChoice : Int
  enrichment : Option StateMap

/-- ASCII whitespace, Python's `\s` and `str.strip()` set. -/
def isSpaceChar (c : Char) : Bool :=
  c = ' ' || c = '\t' || c = '\n' || c = '\r' || c = Char.ofNat 11 || c = Char.ofNat 12

/-- Python's `str.strip()` (ASCII whitespace): drop whitespace from both
ends. -/
def pyStrip (s : String) : String :=
  String.mk (((s.data.dropWhile isSpaceChar).reverse.dropWhile isSpaceChar).reverse)

/-- the record built by `research_company` before its final scrubbing line:
the deterministic baseline (tools.py lines 31–37), with the enrichment
overrides merged in when the adapter ran and succeeded (lines 40–55). -/
def researchBaseline (company_name : String) (env : ResearchEnv) : StateMap :=
  let cn := pyStrip company_name
  let baseline : StateMap :=
    [("company_name", .str cn),
     ("industry", .str "Technology / SaaS"),
     ("stage", .str env.stageChoice),
     ("employee_count_est", .int env.employeeChoice),
     ("summary", .str (baselineSummary cn))]
  match env.enrichment with
  | some enriched => dictUpdate baseline enriched
  | none => baseline

/-- `research_company` (tools.py lines 25–59).  `safe_str(...).strip()` is
`pyStrip` (the input is already a string).  The final line scrubs the
summary in place. -/
def research_company (company_name : String) (env : ResearchEnv) : StateMap :=
  let merged := researchBaseline company_name env
  setKey merged "summary" (.str (scrub_output_for_pii (getStrD merged "summary" "")))

/-- errors raised by the procedural workflow (`ValueError`s of agent.py and
tools.py, plus the `AttributeError` of `.get` on a non-dict). -/
inductive AgentError where
  | missingResearchData : String → AgentError
  | invalidScoreInput : AgentError
  | attributeError : AgentError

/-- floor of a rational, toward minus infinity. -/
def ratFloor (q : ℚ) : Int := q.num.fdiv q.den

/-- Python's `round(x, 2)`.  (Python rounds half to even; at every call site
of this development `q * 100` is an integer, where the two agree, so half-up
is used for simplicity.) -/
def round2 (q : ℚ) : ℚ := (ratFloor (q * 100 + 1 / 2) : ℚ) / 100

/-- Python `int(x)` over `Value` (defensive coercion in `score_lead`):
exact on ints, truncation toward zero on rationals, digit parsing on strings
(Lean's parser, a faithful approximation of `int(str)` for plain numerals),
failure on dicts. -/
def coerceInt : Value → Option Int
  | .int n => some n
  | .rat q => some (if q < 0 then -((-q).num.fdiv (-q).den) else q.num.fdiv q.den)
  | .str s => s.toInt?
  | .dict _ => none

/-- `score_lead` (tools.py lines 62–76). -/
def score_lead (company_name : String) (employee_count intent_score : Value) :
    Except AgentError StateMap :=
  match coerceInt employee_count, coerceInt intent_score with
  | some ec, some i =>
    let base : ℚ := (ec : ℚ) / 100 + (i : ℚ) * 3
    let score := round2 base
    let tier : String := if 12 ≤ score then "A" else if 6 ≤ score then "B" else "C"
    .ok [("company_name", .str company_name), ("score", .rat score), ("tier", .str tier)]
  | _, _ => .error .invalidScoreInput

/-- the deterministic outreach template (tools.py lines 83–88). -/
def outreachTemplate (company_name contact_name : String) : String :=
  "Hi " ++ contact_name ++ ",\n\n" ++
  "I noticed " ++ company_name ++ " is growing rapidly. We help teams like yours accelerate sales operations by automating lead qualification and outreach.\n\n" ++
  "If you're open to a 15-minute sync, I'd love to share how companies reduced SDR time by 30%.\n\n" ++
  "Best,\nSales-ops team"

/-- `generate_outreach` (tools.py lines 79–112).  The polish capability is
`some modelGen` when a model client is passed, with `modelGen i` the text (or
transient failure) of its `i`-th `generate` call; the retried polish is
scrubbed on success, and an exhausted retry is caught, falling back to the
un-polished template. -/
def generate_outreach (company_name contact_name tier : String)
    (model_client : Option (Nat → Except Unit String)) : StateMap :=
  let template := outreachTemplate company_name contact_name
  match model_client with
  | some modelGen =>
    (match retry modelGen 2 with
     | .ok polished => [("email", .str (scrub_output_for_pii polished)), ("tier", .str tier)]
     | .error _ => [("email", .str template), ("tier", .str tier)])
  | none => [("email", .str template), ("tier", .str tier)]

/-! ## agent.py — procedural workflow -/

/-- `validate_email` (agent.py lines 76–82).  `not email or len(email) < 10`
collapses to the length test (the empty string has length `0 < 10`);
`"@" in email` is membership of the character `@`. -/
def validate_email (email : String) : Bool :=
  if email.data.length < 10 then false
  else if !email.data.contains '@' then false
  else true

/-- the fixed deterministic fallback email (agent.py lines 120–124). -/
def fallbackEmail (contact_name company_name : String) : String :=
  "Hi " ++ contact_name ++ ",\n\n" ++
  "Checking in regarding " ++ company_name ++ ". We have some updates that might interest you.\n\n" ++
  "Best,\nSales Team"

/-- rendering of a `Value` inside an f-string.  Numeric formatting is
abstracted (Python prints the score float as e.g. `16.2`; no property in this
development depends on the rendered text). -/
def showValue : Value → String
  | .str s => s
  | .int n => toString n
  | .rat q => toString q
  | .dict _ => "\x7b...\x7d"

/-- the `score_explanation` f-string (agent.py lines 133–136). -/
def scoreExplanation (score_data : StateMap) (employee_count intent_score : Value) : String :=
  "Score " ++ showValue ((lookupKey score_data "score").getD (.str "")) ++
  " (Tier " ++ getStrD score_data "tier" "" ++ ") based on " ++
  showValue employee_count ++ " employees and intent " ++ showValue intent_score ++ "."

/-- Ghost trace of one Outreach-stage run: one entry per `generate_outreach`
call (`true` when the polish capability was passed) and one entry per
assignment to `validation_status`. -/
structure OutreachTrace where
  genCalls : List Bool
  statusWrites : List String

/-- `OutreachAgent` (agent.py lines 84–145), instrumented with the ghost
trace; `modelGen` is the behaviour of the module-level Gemini client used by
the repair attempt, `now` the time of the final session write.  Returns the
Python return value (or the raised error), the updated store, and the trace. -/
def OutreachAgentT (company_name contact_name session_id : String)
    (modelGen : Nat → Except Unit String)
    (svc : InMemorySessionService) (now : Nat) :
    Except AgentError StateMap × InMemorySessionService × OutreachTrace :=
  -- 1. load research from session
  match get_session svc session_id with
  | none => (.error (.missingResearchData session_id), svc, ⟨[], []⟩)
  | some session =>
    match lookupKey session.state "research" with
    | none => (.error (.missingResearchData session_id), svc, ⟨[], []⟩)
    | some research_data =>
      match dictGetD research_data "employee_count_est" (.int 0) with
      | none => (.error .attributeError, svc, ⟨[], []⟩)
      | some employee_count =>
        -- 2. scoring, with the fixed placeholder intent score
        let intent_score : Value := .int 5
        match score_lead company_name employee_count intent_score with
        | .error e => (.error e, svc, ⟨[], []⟩)
        | .ok score_data =>
          -- 3. initial generation attempt, without the polish capability
          let outreach_data := generate_outreach company_name contact_name
            (getStrD score_data "tier" "") none
          let email_content := getStrD outreach_data "email" ""
          -- 4. validation and single repair cycle
          let is_valid := validate_email email_content
          let step :
              StateMap × List Bool × List String :=
            if is_valid then
              (setKey outreach_data "validation_status" (.str "valid"),
               [false], ["valid"])
            else
              let outreach_data' := generate_outreach company_name contact_name
                (getStrD score_data "tier" "") (some modelGen)
              let email_content' := getStrD outreach_data' "email" ""
              if validate_email email_content' then
                (setKey outreach_data' "validation_status" (.str "repaired"),
                 [false, true], ["repaired"])
              else
                (setKey (setKey outreach_data' "email"
                    (.str (fallbackEmail contact_name company_name)))
                  "validation_status" (.str "fallback"),
                 [false, true], ["fallback"])
          -- 5. explanation
          let explained := setKey step.1 "score_explanation"
            (.str (scoreExplanation score_data employee_count intent_score))
          -- 6. save to session and return
          let result : StateMap := [("score", .dict score_data), ("outreach", .dict explained)]
          (.ok result, (update_session svc session_id result now).2,
           ⟨step.2.1, step.2.2⟩)

/-- `OutreachAgent` proper: the traced run without its ghost trace. -/
def OutreachAgent (company_name contact_name session_id : String)
    (modelGen : Nat → Except Unit String)
    (svc : InMemorySessionService) (now : Nat) :
    Except AgentError StateMap × InMemorySessionService :=
  let r := OutreachAgentT company_name contact_name session_id modelGen svc now
  (r.1, r.2.1)

/-- the `"outreach"` record inside an Outreach-stage result. -/
def outreachOf (r : StateMap) : StateMap :=
  match lookupKey r "outreach" with
  | some (.dict d) => d
  | _ => []

/-- the email produced by the repair attempt (`generate_outreach` with the
polish capability attached): the scrubbed polished text when the retried
model call succeeds, the un-polished template otherwise. -/
def repairedEmail (company_name contact_name : String) (modelGen : Nat → Except Unit String) :
    String :=
  match retry modelGen 2 with
  | .ok polished => scrub_output_for_pii polished
  | .error _ => outreachTemplate company_name contact_name

/-! ## Dictionary laws -/

theorem lookupKey_setKey {β : Type} (d : List (String × β)) (k k' : String) (v : β) :
    lookupKey (setKey d k v) k' = if k = k' then some v else lookupKey d k' := by
  induction d with
  | nil => simp [setKey, lookupKey]
  | cons p rest ih =>
    obtain ⟨k0, v0⟩ := p
    by_cases h0 : k0 = k
    · subst h0
      by_cases h1 : k0 = k' <;> simp [setKey, lookupKey, h1]
    · by_cases h1 : k0 = k'
      · subst h1
        have hne : ¬ k = k0 := fun h => h0 h.symm
        simp [setKey, lookupKey, h0, hne]
      · simp [setKey, lookupKey, h0, h1, ih]

theorem lookupKey_eq_none_of_not_mem {β : Type} (d : List (String × β)) (k : String)
    (h : k ∉ d.map Prod.fst) : lookupKey d k = none := by
  induction d with
  | nil => rfl
  | cons p rest ih =>
    obtain ⟨k0, v0⟩ := p
    simp only [List.map_cons, List.mem_cons] at h
    push_neg at h
    simp only [lookupKey, if_neg (fun hh : k0 = k => h.1 hh.symm)]
    exact ih h.2

theorem dictUpdate_cons {β : Type} (d : List (String × β)) (k0 : String) (v0 : β)
    (rest : List (String × β)) :
    dictUpdate d ((k0, v0) :: rest) = dictUpdate (setKey d k0 v0) rest := rfl

theorem lookupKey_dictUpdate_of_none {β : Type} (d new : List (String × β)) (k : String)
    (h : lookupKey new k = none) : lookupKey (dictUpdate d new) k = lookupKey d k := by
  induction new generalizing d with
  | nil => rfl
  | cons p rest ih =>
    obtain ⟨k0, v0⟩ := p
    by_cases h0 : k0 = k
    · simp [lookupKey, h0] at h
    · have h' : lookupKey rest k = none := by simpa [lookupKey, h0] using h
      rw [dictUpdate_cons, ih (setKey d k0 v0) h', lookupKey_setKey, if_neg h0]

theorem lookupKey_dictUpdate_of_some {β : Type} (d new : List (String × β)) (k : String)
    (v : β) (hnd : (new.map Prod.fst).Nodup) (h : lookupKey new k = some v) :
    lookupKey (dictUpdate d new) k = some v := by
  induction new generalizing d with
  | nil => simp [lookupKey] at h
  | cons p rest ih =>
    obtain ⟨k0, v0⟩ := p
    simp only [List.map_cons, List.nodup_cons] at hnd
    by_cases h0 : k0 = k
    · subst h0
      have hv : v0 = v := by simpa [lookupKey] using h
      subst hv
      have hr : lookupKey rest k0 = none := lookupKey_eq_none_of_not_mem rest k0 hnd.1
      rw [dictUpdate_cons, lookupKey_dictUpdate_of_none (setKey d k0 v0) rest k0 hr,
        lookupKey_setKey, if_pos rfl]
    · have h' : lookupKey rest k = some v := by simpa [lookupKey, h0] using h
      rw [dictUpdate_cons]
      exact ih (setKey d k0 v0) hnd.2 h'

/-- the value of an `ok` result (used only to name concrete run results). -/
def okStateOf (r : Except AgentError StateMap) : StateMap :=
  match r with
  | .ok m => m
  | .error _ => []

theorem generate_outreach_none_eq (company_name contact_name tier : String) :
    generate_outreach company_name contact_name tier none =
      [("email", .str (outreachTemplate company_name contact_name)), ("tier", .str tier)] := rfl

theorem generate_outreach_some_eq (company_name contact_name tier : String)
    (modelGen : Nat → Except Unit String) :
    generate_outreach company_name contact_name tier (some modelGen) =
      [("email", .str (repairedEmail company_name contact_name modelGen)), ("tier", .str tier)] := by
  unfold generate_outreach repairedEmail
  cases h : retry modelGen 2 <;> simp [h]

theorem score_lead_error_eq (company_name : String) (a b : Value) (e : AgentError)
    (h : score_lead company_name a b = .error e) : e = .invalidScoreInput := by
  unfold score_lead at h
  split at h
  · exact absurd h (by simp)
  · exact (Except.error.inj h).symm

/-- An `ok` Outreach run passed all four preconditions: the session exists,
holds a `"research"` value, that value answers `.get`, and scoring
succeeded. -/
theorem outreach_ok_inv (company_name contact_name session_id : String)
    (modelGen : Nat → Except Unit String) (svc : InMemorySessionService) (now : Nat)
    (r : StateMap)
    (h : (OutreachAgentT company_name contact_name session_id modelGen svc now).1 = .ok r) :
    ∃ session research_data employee_count score_data,
      get_session svc session_id = some session ∧
      lookupKey session.state "research" = some research_data ∧
      dictGetD research_data "employee_count_est" (Value.int 0) = some employee_count ∧
      score_lead company_name employee_count (Value.int 5) = .ok score_data := by
  unfold OutreachAgentT at h
  split at h
  next hget => exact absurd h (by simp)
  next session hget =>
    split at h
    next hres => exact absurd h (by simp)
    next research_data hres =>
      split at h
      next hemp => exact absurd h (by simp)
      next employee_count hemp =>
        dsimp only at h
        split at h
        next e hsc => exact absurd h (by simp)
        next score_data hsc =>
          exact ⟨session, research_data, employee_count, score_data, hget, hres, hemp, hsc⟩

/-- Full characterization of an Outreach run whose four preconditions hold:
the returned pair, the updated store, the ghost trace, and the
`validation_status` / `email` fields of the outreach record, as functions of
the two validation outcomes. -/
theorem outreach_run_char (company_name contact_name session_id : String)
    (modelGen : Nat → Except Unit String) (svc : InMemorySessionService) (now : Nat)
    (session : Session) (research_data employee_count : Value) (score_data : StateMap)
    (hget : get_session svc session_id = some session)
    (hres : lookupKey session.state "research" = some research_data)
    (hemp : dictGetD research_data "employee_count_est" (Value.int 0) = some employee_count)
    (hsc : score_lead company_name employee_count (Value.int 5) = .ok score_data) :
    ∃ od, OutreachAgentT company_name contact_name session_id modelGen svc now =
      (.ok [("score", .dict score_data), ("outreach", .dict od)],
       (update_session svc session_id
         [("score", .dict score_data), ("outreach", .dict od)] now).2,
       ⟨if validate_email (outreachTemplate company_name contact_name) then [false]
        else [false, true],
        [if validate_email (outreachTemplate company_name contact_name) then "valid"
         else if validate_email (repairedEmail company_name contact_name modelGen) then "repaired"
         else "fallback"]⟩) ∧
      lookupKey od "validation_status" =
        some (.str (if validate_email (outreachTemplate company_name contact_name) then "valid"
          else if validate_email (repairedEmail company_name contact_name modelGen) then "repaired"
          else "fallback")) ∧
      getStrD od "email" "" =
        (if validate_email (outreachTemplate company_name contact_name) then
           outreachTemplate company_name contact_name
         else if validate_email (repairedEmail company_name contact_name modelGen) then
           repairedEmail company_name contact_name modelGen
         else fallbackEmail contact_name company_name) := by
  simp only [OutreachAgentT, hget, hres, hemp, hsc,
    generate_outreach_none_eq, generate_outreach_some_eq]
  by_cases h1 : validate_email (outreachTemplate company_name contact_name) = true
  · refine ⟨setKey (setKey
        [("email", Value.str (outreachTemplate company_name contact_name)),
         ("tier", Value.str (getStrD score_data "tier" ""))]
        "validation_status" (Value.str "valid"))
        "score_explanation" (Value.str (scoreExplanation score_data employee_count (Value.int 5))),
        ?_, ?_, ?_⟩ <;>
      simp [getStrD, lookupKey, setKey, h1]
  · by_cases h2 : validate_email (repairedEmail company_name contact_name modelGen) = true
    · refine ⟨setKey (setKey
          [("email", Value.str (repairedEmail company_name contact_name modelGen)),
           ("tier", Value.str (getStrD score_data "tier" ""))]
          "validation_status" (Value.str "repaired"))
          "score_explanation" (Value.str (scoreExplanation score_data employee_count (Value.int 5))),
          ?_, ?_, ?_⟩ <;>
        simp [getStrD, lookupKey, setKey, h1, h2]
    · refine ⟨setKey (setKey (setKey
          [("email", Value.str (repairedEmail company_name contact_name modelGen)),
           ("tier", Value.str (getStrD score_data "tier" ""))]
          "email" (Value.str (fallbackEmail contact_name company_name)))
          "validation_status" (Value.str "fallback"))
          "score_explanation" (Value.str (scoreExplanation score_data employee_count (Value.int 5))),
          ?_, ?_, ?_⟩ <;>
        simp [getStrD, lookupKey, setKey, h1, h2]

/-- `ratFloor` is the mathematical floor (the rational's denominator is
positive, where `Int.fdiv` agrees with Euclidean division). -/
theorem ratFloor_eq_floor (q : ℚ) : ratFloor q = ⌊q⌋ := by
  rw [ratFloor, Rat.floor_def]
  exact Int.fdiv_eq_ediv q.num (Int.ofNat_nonneg q.den)

/-! ## Claims -/

/-- C3: for every pair of inputs that coerce to integers, `score_lead`
returns `score = round(employee_count/100 + intent_score*3, 2)` and the tier
given exactly by the thresholds `A` at `score ≥ 12`, `B` at `score ≥ 6`,
`C` below. -/
theorem score_lead_formula (company : String) (ev iv : Value) (ec i : Int)
    (hev : coerceInt ev = some ec) (hiv : coerceInt iv = some i) :
    score_lead company ev iv = .ok
      [("company_name", .str company),
       ("score", .rat (round2 ((ec : ℚ) / 100 + (i : ℚ) * 3))),
       ("tier", .str (if 12 ≤ round2 ((ec : ℚ) / 100 + (i : ℚ) * 3) then "A"
                      else if 6 ≤ round2 ((ec : ℚ) / 100 + (i : ℚ) * 3) then "B" else "C"))] := by
  unfold score_lead
  rw [hev, hiv]

/-- C3 witness: the four boundary scores of the claim — `12 → A`,
`11.99 → B`, `6 → B`, `5.99 → C` — realized at concrete coercible inputs. -/
theorem score_lead_formula_witness :
    score_lead "X" (.int 1200) (.int 0) = .ok
      [("company_name", .str "X"), ("score", .rat 12), ("tier", .str "A")] ∧
    score_lead "X" (.int 1199) (.int 0) = .ok
      [("company_name", .str "X"), ("score", .rat (1199 / 100 : ℚ)), ("tier", .str "B")] ∧
    score_lead "X" (.int 600) (.int 0) = .ok
      [("company_name", .str "X"), ("score", .rat 6), ("tier", .str "B")] ∧
    score_lead "X" (.int 599) (.int 0) = .ok
      [("company_name", .str "X"), ("score", .rat (599 / 100 : ℚ)), ("tier", .str "C")] := by
  refine ⟨?_, ?_, ?_, ?_⟩
  · rw [score_lead_formula "X" (.int 1200) (.int 0) 1200 0 rfl rfl]
    norm_num [round2, ratFloor_eq_floor]
  · rw [score_lead_formula "X" (.int 1199) (.int 0) 1199 0 rfl rfl]
    norm_num [round2, ratFloor_eq_floor]
  · rw [score_lead_formula "X" (.int 600) (.int 0) 600 0 rfl rfl]
    norm_num [round2, ratFloor_eq_floor]
  · rw [score_lead_formula "X" (.int 599) (.int 0) 599 0 rfl rfl]
    norm_num [round2, ratFloor_eq_floor]

/-- C4 counterexample: the claim's example string `"a@b.cccc1"` has nine
characters, not ten, so the validator rejects it, contradicting the claimed
`true`. -/
theorem validate_email_nine_chars_cex :
    validate_email "a@b.cccc1" = false ∧ "a@b.cccc1".data.length = 9 := by
  constructor <;> rfl

/-- C4 (amended): the validator returns `false` below ten characters (which
includes the empty string), `false` at ten or more characters without `@`,
and `true` otherwise; the claim's example `"a@b.cccc1"` is only nine
characters long, so it returns `false` (a ten-character variant such as
`"ab@b.cccc1"` returns `true`). -/
theorem validate_email_policy (email : String) :
    (email.length < 10 → validate_email email = false) ∧
    (10 ≤ email.length → '@' ∉ email.data → validate_email email = false) ∧
    (10 ≤ email.length → '@' ∈ email.data → validate_email email = true) ∧
    validate_email "a@b.cccc1" = false ∧ validate_email "ab@b.cccc1" = true := by
  refine ⟨fun h => ?_, fun h h' => ?_, fun h h' => ?_, rfl, rfl⟩
  · simp [validate_email, h]
  · simp [validate_email, Nat.not_lt.mpr h, h']
  · simp [validate_email, Nat.not_lt.mpr h, h']

/-- C4 witness: the three policy branches at concrete inputs. -/
theorem validate_email_policy_witness :
    validate_email "a@b.cc" = false ∧
    validate_email "abcdefghijk" = false ∧
    validate_email "ab@b.cccc1" = true :=
  ⟨(validate_email_policy "a@b.cc").1 (by decide),
   (validate_email_policy "abcdefghijk").2.1 (by decide) (by decide),
   (validate_email_policy "ab@b.cccc1").2.2.1 (by decide) (by decide)⟩

/-- C5: updating an existing session merges the new bindings by shallow key
overwrite — keys of the partial map win, every other key keeps its prior
value — and refreshes `updated_at`; updating an unknown id returns `none`
without raising and leaves the store unchanged.  (The partial map is a
Python dict, hence its keys are distinct.) -/
theorem update_session_spec (svc : InMemorySessionService) (sid : String)
    (new_state : StateMap) (now : Nat) :
    (∀ s, get_session svc sid = some s → (new_state.map Prod.fst).Nodup →
      ∃ s', update_session svc sid new_state now = (some s', ⟨setKey svc.sessions sid s'⟩) ∧
        s'.updated_at = now ∧ s'.session_id = s.session_id ∧ s'.created_at = s.created_at ∧
        (∀ k v, lookupKey new_state k = some v → lookupKey s'.state k = some v) ∧
        (∀ k, lookupKey new_state k = none → lookupKey s'.state k = lookupKey s.state k)) ∧
    (get_session svc sid = none → update_session svc sid new_state now = (none, svc)) := by
  constructor
  · intro s hs hnd
    unfold update_session
    rw [hs]
    exact ⟨_, rfl, rfl, rfl, rfl,
      fun k v h => lookupKey_dictUpdate_of_some s.state new_state k v hnd h,
      fun k h => lookupKey_dictUpdate_of_none s.state new_state k h⟩
  · intro h
    unfold update_session
    rw [h]

/-- a concrete session and one-session store used by the witnesses below. -/
def sessW : Session :=
  { session_id := "w1", created_at := 0, updated_at := 0,
    state := [("research", Value.str "r"), ("keep", Value.int 1)] }

def svcW : InMemorySessionService := ⟨[("w1", sessW)]⟩

/-- C5 witness: on a one-session store, an update overwrites the key it
carries, preserves the key it does not, stamps the new time, and an update
of an unknown id is an unchanged-store no-op. -/
theorem update_session_spec_witness :
    (∃ s', update_session svcW "w1" [("research", Value.str "r2"), ("score", Value.int 9)] 42 =
        (some s', ⟨setKey svcW.sessions "w1" s'⟩) ∧
      s'.updated_at = 42 ∧
      lookupKey s'.state "research" = some (Value.str "r2") ∧
      lookupKey s'.state "score" = some (Value.int 9) ∧
      lookupKey s'.state "keep" = some (Value.int 1)) ∧
    update_session ⟨[]⟩ "nope" [("x", Value.int 0)] 7 = (none, ⟨[]⟩) := by
  constructor
  · obtain ⟨s', heq, hupd, _, _, hover, hkeep⟩ :=
      (update_session_spec svcW "w1"
        [("research", Value.str "r2"), ("score", Value.int 9)] 42).1 sessW rfl (by decide)
    exact ⟨s', heq, hupd,
      hover "research" (Value.str "r2") rfl,
      hover "score" (Value.int 9) rfl,
      (hkeep "keep" rfl).trans rfl⟩
  · exact (update_session_spec ⟨[]⟩ "nope" [("x", Value.int 0)] 7).2 rfl

/-- C7: when the polish capability fails on both attempts of the bounded
retry loop (`attempts=2` at this call site), `generate_outreach` catches the
exhausted error and returns the un-polished deterministic template — the
transient error never escapes the function. -/
theorem generate_outreach_polish_exhausted (company_name contact_name tier : String)
    (modelGen : Nat → Except Unit String)
    (h0 : modelGen 0 = .error ()) (h1 : modelGen 1 = .error ()) :
    generate_outreach company_name contact_name tier (some modelGen) =
      [("email", .str (outreachTemplate company_name contact_name)), ("tier", .str tier)] := by
  have h2 : retry modelGen 2 = .error () := by
    simp [retry, retryE, h0, h1]
  simp [generate_outreach, h2]

/-- C7 witness: a polish capability that always fails transiently yields the
un-polished template. -/
theorem generate_outreach_polish_exhausted_witness :
    generate_outreach "Acme Corp" "Alice" "B" (some fun _ => .error ()) =
      [("email", .str (outreachTemplate "Acme Corp" "Alice")), ("tier", .str "B")] :=
  generate_outreach_polish_exhausted "Acme Corp" "Alice" "B" (fun _ => .error ()) rfl rfl

/-- a session holding research data, its one-session store, and an
always-failing polish capability: concrete fixtures for the Outreach-stage
witnesses and counterexamples. -/
def sessR : Session :=
  { session_id := "s1", created_at := 0, updated_at := 0,
    state := [("research", Value.dict
      [("company_name", Value.str "Acme Corp"), ("employee_count_est", Value.int 120)])] }

def svcR : InMemorySessionService := ⟨[("s1", sessR)]⟩

def failPolish : Nat → Except Unit String := fun _ => .error ()

set_option maxRecDepth 10000 in
/-- C1 counterexample: in a run where both generation attempts fail
validation, the stage does produce the fixed fallback email with
`validation_status = "fallback"`, but that fallback email itself FAILS
`validate_email` (it contains no `@` character), contradicting the claim
that the fallback "satisfies the validator is_valid / is unconditionally
valid by construction". -/
theorem outreach_fallback_email_invalid_cex :
    lookupKey (outreachOf (okStateOf
        (OutreachAgentT "Acme Corp" "Alice" "s1" failPolish svcR 7).1))
      "validation_status" = some (Value.str "fallback") ∧
    getStrD (outreachOf (okStateOf
        (OutreachAgentT "Acme Corp" "Alice" "s1" failPolish svcR 7).1)) "email" "" =
      fallbackEmail "Alice" "Acme Corp" ∧
    validate_email (fallbackEmail "Alice" "Acme Corp") = false :=
  ⟨rfl, rfl, rfl⟩

/-- C1 (amended): when both generation attempts of a run that reaches the
generation step produce emails failing validation, the stage returns the
fixed deterministic fallback email (containing `contact_name` and
`company_name`) and sets `validation_status` to `"fallback"`; the fallback
email is NOT itself accepted by `validate_email` in general (it contains no
`@` unless one of the names does). -/
theorem outreach_both_invalid_fallback (company_name contact_name session_id : String)
    (modelGen : Nat → Except Unit String) (svc : InMemorySessionService) (now : Nat)
    (session : Session) (research_data employee_count : Value) (score_data : StateMap)
    (hget : get_session svc session_id = some session)
    (hres : lookupKey session.state "research" = some research_data)
    (hemp : dictGetD research_data "employee_count_est" (Value.int 0) = some employee_count)
    (hsc : score_lead company_name employee_count (Value.int 5) = .ok score_data)
    (h1 : validate_email (outreachTemplate company_name contact_name) = false)
    (h2 : validate_email (repairedEmail company_name contact_name modelGen) = false) :
    ∃ od, (OutreachAgentT company_name contact_name session_id modelGen svc now).1 =
        .ok [("score", .dict score_data), ("outreach", .dict od)] ∧
      lookupKey od "validation_status" = some (Value.str "fallback") ∧
      getStrD od "email" "" = fallbackEmail contact_name company_name := by
  obtain ⟨od, heq, hstat, hemail⟩ := outreach_run_char company_name contact_name session_id
    modelGen svc now session research_data employee_count score_data hget hres hemp hsc
  refine ⟨od, ?_, ?_, ?_⟩
  · rw [heq]
  · rw [hstat]; simp [h1, h2]
  · rw [hemail]; simp [h1, h2]

set_option maxRecDepth 10000 in
/-- C1 witness: the amended statement realized on the concrete fixture run
(research present, polish always failing transiently). -/
theorem outreach_both_invalid_fallback_witness :
    ∃ od, (OutreachAgentT "Acme Corp" "Alice" "s1" failPolish svcR 7).1 =
        .ok [("score", .dict (okStateOf (score_lead "Acme Corp" (Value.int 120) (Value.int 5)))),
             ("outreach", .dict od)] ∧
      lookupKey od "validation_status" = some (Value.str "fallback") ∧
      getStrD od "email" "" = fallbackEmail "Alice" "Acme Corp" :=
  outreach_both_invalid_fallback "Acme Corp" "Alice" "s1" failPolish svcR 7 sessR
    (Value.dict [("company_name", Value.str "Acme Corp"), ("employee_count_est", Value.int 120)])
    (Value.int 120) (okStateOf (score_lead "Acme Corp" (Value.int 120) (Value.int 5)))
    rfl rfl rfl rfl rfl rfl

/-- C2: every normally-returning Outreach run makes at most two generation
attempts, the first without the polish capability; `validation_status` is
written exactly once, to the value of the branch — `"valid"` iff the initial
template validated, `"repaired"` iff it did not but the repair email did,
`"fallback"` iff neither did — and that value is the one stored in the
returned outreach record. -/
theorem outreach_status_discipline (company_name contact_name session_id : String)
    (modelGen : Nat → Except Unit String) (svc : InMemorySessionService) (now : Nat)
    (r : StateMap)
    (hok : (OutreachAgentT company_name contact_name session_id modelGen svc now).1 = .ok r) :
    (OutreachAgentT company_name contact_name session_id modelGen svc now).2.2.genCalls.length ≤ 2 ∧
    (OutreachAgentT company_name contact_name session_id modelGen svc now).2.2.genCalls.head? =
      some false ∧
    ∃ st, (OutreachAgentT company_name contact_name session_id modelGen svc now).2.2.statusWrites
        = [st] ∧
      lookupKey (outreachOf r) "validation_status" = some (Value.str st) ∧
      (st = "valid" ∨ st = "repaired" ∨ st = "fallback") ∧
      (st = "valid" ↔ validate_email (outreachTemplate company_name contact_name) = true) ∧
      (st = "repaired" ↔ (validate_email (outreachTemplate company_name contact_name) = false ∧
        validate_email (repairedEmail company_name contact_name modelGen) = true)) ∧
      (st = "fallback" ↔ (validate_email (outreachTemplate company_name contact_name) = false ∧
        validate_email (repairedEmail company_name contact_name modelGen) = false)) := by
  obtain ⟨session, research_data, employee_count, score_data, hget, hres, hemp, hsc⟩ :=
    outreach_ok_inv company_name contact_name session_id modelGen svc now r hok
  obtain ⟨od, heq, hstat, hemail⟩ := outreach_run_char company_name contact_name session_id
    modelGen svc now session research_data employee_count score_data hget hres hemp hsc
  have hr : r = [("score", .dict score_data), ("outreach", .dict od)] := by
    have h1 := congrArg Prod.fst heq
    rw [hok] at h1
    exact Except.ok.inj h1
  subst hr
  rw [heq]
  have ho : outreachOf [("score", Value.dict score_data), ("outreach", Value.dict od)] = od := rfl
  refine ⟨?_, ?_, ?_⟩
  · by_cases h1 : validate_email (outreachTemplate company_name contact_name) = true <;>
      simp [h1]
  · by_cases h1 : validate_email (outreachTemplate company_name contact_name) = true <;>
      simp [h1]
  · refine ⟨_, rfl, ?_, ?_, ?_, ?_, ?_⟩
    · rw [ho]; exact hstat
    · by_cases h1 : validate_email (outreachTemplate company_name contact_name) = true <;>
        by_cases h2 : validate_email (repairedEmail company_name contact_name modelGen) = true <;>
        simp [h1, h2]
    · by_cases h1 : validate_email (outreachTemplate company_name contact_name) = true <;>
        by_cases h2 : validate_email (repairedEmail company_name contact_name modelGen) = true <;>
        simp [h1, h2]
    · by_cases h1 : validate_email (outreachTemplate company_name contact_name) = true <;>
        by_cases h2 : validate_email (repairedEmail company_name contact_name modelGen) = true <;>
        simp [h1, h2]
    · by_cases h1 : validate_email (outreachTemplate company_name contact_name) = true <;>
        by_cases h2 : validate_email (repairedEmail company_name contact_name modelGen) = true <;>
        simp [h1, h2]

/-- C2 witness: the discipline on the concrete fixture run. -/
theorem outreach_status_discipline_witness :
    (OutreachAgentT "Acme Corp" "Alice" "s1" failPolish svcR 7).2.2.genCalls.length ≤ 2 ∧
    (OutreachAgentT "Acme Corp" "Alice" "s1" failPolish svcR 7).2.2.genCalls.head? =
      some false ∧
    ∃ st, (OutreachAgentT "Acme Corp" "Alice" "s1" failPolish svcR 7).2.2.statusWrites = [st] := by
  have h := outreach_status_discipline "Acme Corp" "Alice" "s1" failPolish svcR 7
    (okStateOf (OutreachAgentT "Acme Corp" "Alice" "s1" failPolish svcR 7).1) rfl
  exact ⟨h.1, h.2.1, h.2.2.elim fun st hst => ⟨st, hst.1⟩⟩

/-- C6: the Outreach stage fails with the missing-research error exactly
when the session is absent or its state has no `"research"` key; when the
session exists and carries research data this error is never raised
(any failure is a different error). -/
theorem outreach_missing_research_iff (company_name contact_name session_id : String)
    (modelGen : Nat → Except Unit String) (svc : InMemorySessionService) (now : Nat) :
    (OutreachAgent company_name contact_name session_id modelGen svc now).1 =
        .error (.missingResearchData session_id) ↔
      (get_session svc session_id = none ∨
        ∃ s, get_session svc session_id = some s ∧ lookupKey s.state "research" = none) := by
  constructor
  · intro h
    unfold OutreachAgent at h
    dsimp only at h
    unfold OutreachAgentT at h
    split at h
    next hget => exact Or.inl hget
    next session hget =>
      split at h
      next hres => exact Or.inr ⟨session, hget, hres⟩
      next research_data hres =>
        split at h
        next hemp => simp at h
        next employee_count hemp =>
          dsimp only at h
          split at h
          next e hsc =>
            have he := score_lead_error_eq company_name employee_count (Value.int 5) e hsc
            subst he
            simp at h
          next score_data hsc => simp at h
  · intro h
    rcases h with hget | ⟨s, hget, hres⟩
    · simp [OutreachAgent, OutreachAgentT, hget]
    · simp [OutreachAgent, OutreachAgentT, hget, hres]

/-- every string without an `@` character fails the validator. -/
theorem validate_email_no_at (s : String) (h : '@' ∉ s.data) : validate_email s = false := by
  by_cases hl : s.length < 10
  · simp [validate_email, hl]
  · simp [validate_email, hl, h]

/-- C9: when neither name contains `@`, the deterministic template contains
no `@`, the polish-free generation returns exactly that template, its
validation fails, and consequently every normally-returning Outreach run for
such inputs takes the repair transition (exactly two generation attempts,
the second with the polish capability). -/
theorem outreach_template_forces_repair (company_name contact_name : String)
    (hc : '@' ∉ company_name.data) (hk : '@' ∉ contact_name.data) :
    '@' ∉ (outreachTemplate company_name contact_name).data ∧
    validate_email (outreachTemplate company_name contact_name) = false ∧
    (∀ tier, generate_outreach company_name contact_name tier none =
      [("email", Value.str (outreachTemplate company_name contact_name)),
       ("tier", Value.str tier)]) ∧
    (∀ session_id modelGen svc now r,
      (OutreachAgentT company_name contact_name session_id modelGen svc now).1 = .ok r →
      (OutreachAgentT company_name contact_name session_id modelGen svc now).2.2.genCalls =
        [false, true]) := by
  have hat : '@' ∉ (outreachTemplate company_name contact_name).data := by
    intro hmem
    simp only [outreachTemplate, String.data_append, List.mem_append, or_assoc] at hmem
    rcases hmem with h | h | h | h | h | h | h | h
    · exact absurd h (by decide)
    · exact hk h
    · exact absurd h (by decide)
    · exact absurd h (by decide)
    · exact hc h
    · exact absurd h (by decide)
    · exact absurd h (by decide)
    · exact absurd h (by decide)
  have hval := validate_email_no_at _ hat
  refine ⟨hat, hval, fun tier => generate_outreach_none_eq company_name contact_name tier,
    fun session_id modelGen svc now r hok => ?_⟩
  obtain ⟨session, research_data, employee_count, score_data, hget, hres, hemp, hsc⟩ :=
    outreach_ok_inv company_name contact_name session_id modelGen svc now r hok
  obtain ⟨od, heq, _, _⟩ := outreach_run_char company_name contact_name session_id
    modelGen svc now session research_data employee_count score_data hget hres hemp hsc
  rw [heq]
  simp [hval]

/-- C9 witness: the forced repair transition on the concrete fixture run. -/
theorem outreach_template_forces_repair_witness :
    validate_email (outreachTemplate "Acme Corp" "Alice") = false ∧
    (OutreachAgentT "Acme Corp" "Alice" "s1" failPolish svcR 7).2.2.genCalls = [false, true] := by
  have h := outreach_template_forces_repair "Acme Corp" "Alice" (by decide) (by decide)
  exact ⟨h.2.1, h.2.2.2 "s1" failPolish svcR 7
    (okStateOf (OutreachAgentT "Acme Corp" "Alice" "s1" failPolish svcR 7).1) rfl⟩

/-- C10: the Outreach stage writes the session only as its final step, so
every run that raises an error leaves the session store exactly as it was. -/
theorem outreach_error_frame (company_name contact_name session_id : String)
    (modelGen : Nat → Except Unit String) (svc : InMemorySessionService) (now : Nat)
    (e : AgentError)
    (h : (OutreachAgent company_name contact_name session_id modelGen svc now).1 = .error e) :
    (OutreachAgent company_name contact_name session_id modelGen svc now).2 = svc := by
  cases hget : get_session svc session_id with
  | none => simp [OutreachAgent, OutreachAgentT, hget]
  | some session =>
    cases hres : lookupKey session.state "research" with
    | none => simp [OutreachAgent, OutreachAgentT, hget, hres]
    | some research_data =>
      cases hemp : dictGetD research_data "employee_count_est" (Value.int 0) with
      | none => simp [OutreachAgent, OutreachAgentT, hget, hres, hemp]
      | some employee_count =>
        cases hsc : score_lead company_name employee_count (Value.int 5) with
        | error e' => simp [OutreachAgent, OutreachAgentT, hget, hres, hemp, hsc]
        | ok score_data =>
          exfalso
          simp [OutreachAgent, OutreachAgentT, hget, hres, hemp, hsc] at h

set_option maxRecDepth 10000 in
/-- C8 counterexample: for `company_name = "x@y.zz1 2345678 9aa.bb"`, the
scrubbed summary returned by `research_company` still contains an email-like
substring (`"x@y.zz"`, a full match of the email pattern with its word
boundaries): the phone pass, which runs second, redacted the digit run whose
leading `1` had blocked the email pattern during the earlier email pass.
The claim's "never contains a raw email-like or phone-like substring"
therefore fails. -/
theorem research_summary_email_like_cex :
    getStrD (research_company "x@y.zz1 2345678 9aa.bb" ⟨"Seed", 25, none⟩) "summary" "" =
      "x@y.zz[REDACTED_PHONE]aa.bb is a company operating in the Technology vertical (deterministic mock)." ∧
    containsEmailLike (getStrD (research_company "x@y.zz1 2345678 9aa.bb" ⟨"Seed", 25, none⟩)
      "summary" "") = true :=
  ⟨by decide, by decide⟩

/-- C8 (amended): the summary field of every `research_company` record is
the result of `scrub_output_for_pii` applied to the raw (possibly
enrichment-overridden) summary, and the scrub replaces matched email-like
and phone-like substrings with their redaction markers (as on the spec's own
examples); but the scrubbed summary may still contain an email-like
substring, so the "never contains raw email-like or phone-like substrings"
invariant does not hold in general. -/
theorem research_summary_scrubbed (company_name : String) (env : ResearchEnv) :
    lookupKey (research_company company_name env) "summary" =
      some (.str (scrub_output_for_pii
        (getStrD (researchBaseline company_name env) "summary" ""))) ∧
    scrub_output_for_pii "contact me at a@b.com" = "contact me at [REDACTED_EMAIL]" ∧
    scrub_output_for_pii "call 555-123-4567" = "call [REDACTED_PHONE]" := by
  refine ⟨?_, rfl, rfl⟩
  simp only [research_company]
  rw [lookupKey_setKey]
  simp

/-- C10 witness: a failing run (unknown session) leaves the empty store
untouched. -/
theorem outreach_error_frame_witness :
    (OutreachAgent "Acme Corp" "Alice" "missing" failPolish ⟨[]⟩ 3).2 = (⟨[]⟩ : InMemorySessionService) ∧
    (OutreachAgent "Acme Corp" "Alice" "missing" failPolish ⟨[]⟩ 3).1 =
      .error (.missingResearchData "missing") :=
  ⟨outreach_error_frame "Acme Corp" "Alice" "missing" failPolish ⟨[]⟩ 3
      (.missingResearchData "missing") rfl, rfl⟩

end SalesPipeline

